import Mathlib

/-!
Shallow embedding of the VoiceScan Parkinsons detection server
(src/server.js): the feature-extraction, classification and
interpretation pipeline, with the numeric type ℚ standing for
JavaScript numbers and explicit parameters standing for the
ambient Math.random draws and Math.sin.
-/

namespace VoiceScan

/-- Model of JavaScript String.prototype.toLowerCase for the ASCII labels
used by the program: lower-case every character. -/
def jsToLower (s : String) : String := ⟨s.data.map Char.toLower⟩

/-- Model of JavaScript String.prototype.includes: substring containment. -/
def jsIncludes (s sub : String) : Bool := decide (sub.data <:+: s.data)

/-- Helper for jsToFixed1 on a nonnegative rational: round x to one decimal
place, half away from zero, and print it. -/
def jsToFixed1Pos (x : ℚ) : String :=
  let n : ℕ := (⌊x * 10 + 1/2⌋).toNat
  toString (n / 10) ++ "." ++ toString (n % 10)

/-- Model of JavaScript Number.prototype.toFixed(1). -/
def jsToFixed1 (x : ℚ) : String :=
  if x < 0 then "-" ++ jsToFixed1Pos (-x) else jsToFixed1Pos x

/-- One labeled score of a classification result (element of the
`results` array built by classify in src/server.js). -/
structure ClassScore where
  label : String
  value : ℚ
deriving DecidableEq

/-- The object returned by EdgeImpulseClassifier.classify in src/server.js:
an anomaly flag plus an ordered list of labeled scores. -/
structure ClassificationResult where
  anomaly : Bool
  results : List ClassScore
deriving DecidableEq

/-- The object returned by getProjectInfo in src/server.js. -/
structure ProjectInfo where
  owner : String
  name : String
  version : String
deriving DecidableEq

/-- The mutable state of the EdgeImpulseClassifier class: its single
field models the private field `_initialized` of src/server.js. -/
structure ClassifierState where
  inited : Bool
deriving DecidableEq

/-- The object returned by interpretResults in src/server.js. -/
structure Interpretation where
  hasParkinson : Bool
  confidence : ℚ
  message : String
deriving DecidableEq

/-- `config.audio` of src/server.js (lines 232-242). -/
structure AudioConfig where
  sampleRate : ℕ
  windowSize : ℕ
  hopLength : ℕ
  numMFCC : ℕ
  numFeatures : ℕ
  preEmphasis : ℚ
  minFreq : ℕ
  maxFreq : ℕ
  numMelFilters : ℕ

/-- `config.model` of src/server.js (lines 245-249). -/
structure ModelConfig where
  inputLength : ℕ
  threshold : ℚ
  labels : List String

/-- `config.upload` of src/server.js (lines 252-256). -/
structure UploadConfig where
  maxFileSize : ℕ
  allowedFormats : List String
  tempDir : String

/-- The whole `config` object of src/server.js (lines 230-257). -/
structure Config where
  audio : AudioConfig
  model : ModelConfig
  upload : UploadConfig

/-- The literal `config` value declared at the bottom of src/server.js. -/
def config : Config :=
  { audio :=
      { sampleRate := 16000
        windowSize := 1024
        hopLength := 512
        numMFCC := 13
        numFeatures := 13
        preEmphasis := 97/100
        minFreq := 0
        maxFreq := 8000
        numMelFilters := 26 }
    model :=
      { inputLength := 13
        threshold := 5/10
        labels := ["healthy", "parkinsons"] }
    upload :=
      { maxFileSize := 10 * 1024 * 1024
        allowedFormats := [".wav", ".mp3", ".m4a", ".ogg"]
        tempDir := "./uploads" } }

namespace EdgeImpulseClassifier

/-- EdgeImpulseClassifier.init (src/server.js lines 28-33): if already
marked, return unchanged; otherwise set the mark.  The console log and
the resolved promise carry no data and are dropped. -/
def init (s : ClassifierState) : ClassifierState :=
  if s.inited = true then s else { s with inited := true }

/-- EdgeImpulseClassifier.getProjectInfo (src/server.js lines 35-41):
a constant record, independent of the classifier state. -/
def getProjectInfo (s : ClassifierState) : ProjectInfo :=
  { owner := "Demo"
    name := "Parkinsons Speech Analysis"
    version := "1.0.0" }

/-- EdgeImpulseClassifier.classify (src/server.js lines 43-55).  `rand`
is the value drawn from Math.random inside the body; `rawData` and
`debug` are the JavaScript parameters, both unused by the body. -/
def classify (s : ClassifierState) (rand : ℚ) (rawData : List ℚ)
    (debug : Bool := false) : ClassificationResult :=
  let healthyScore : ℚ := rand * (4/10) + 3/10
  let parkinsonScore : ℚ := 1 - healthyScore
  { anomaly := decide (parkinsonScore > 6/10)
    results :=
      [ { label := "healthy", value := healthyScore }
      , { label := "parkinson", value := parkinsonScore } ] }

end EdgeImpulseClassifier

/-- extractFeaturesFromAudio (src/server.js lines 73-91).  `sinF` stands
for Math.sin at the natural-number arguments seed + i, and `rand i` for
the i-th Math.random draw of the loop.  The audio buffer enters only
through its length; 128 is the function-local `numFeatures` constant. -/
def extractFeaturesFromAudio (sinF : ℕ → ℚ) (audioBuffer : List ℕ)
    (rand : ℕ → ℚ) : List ℚ :=
  let seed := audioBuffer.length % 1000
  (List.range 128).map fun i => (sinF (seed + i) + rand i * (1/2)) * (1/2)

/-- processAudioFile (src/server.js lines 93-113).  The file system is
modelled by `fileOnDisk`: `none` when fs.existsSync is false, otherwise
the bytes that readFileSync returns; the rejection carries the message
of the thrown error. -/
def processAudioFile (fileOnDisk : Option (List ℕ)) (sinF : ℕ → ℚ)
    (rand : ℕ → ℚ) : Except String (List ℚ) :=
  match fileOnDisk with
  | none => .error "Audio file not found"
  | some audioBuffer => .ok (extractFeaturesFromAudio sinF audioBuffer rand)

/-- The predicate of the first `find` of interpretResults
(src/server.js lines 166-169). -/
def isPositiveLabel (r : ClassScore) : Bool :=
  jsIncludes (jsToLower r.label) "parkinson" ||
  jsIncludes (jsToLower r.label) "positive"

/-- The predicate of the second `find` of interpretResults
(src/server.js lines 171-174). -/
def isNegativeLabel (r : ClassScore) : Bool :=
  jsIncludes (jsToLower r.label) "healthy" ||
  jsIncludes (jsToLower r.label) "negative"

/-- Constant part of the positive-verdict message before the
interpolated percentage (src/server.js line 185). -/
def posMessagePre : String :=
  "Analysis detected speech patterns that may indicate Parkinson's disease ("

/-- Constant part of the positive-verdict message after the
interpolated percentage (src/server.js line 185). -/
def posMessageSuf : String :=
  "% confidence). This is a screening tool only - please consult with a healthcare professional for proper medical evaluation and diagnosis."

/-- The positive-verdict template literal (src/server.js line 185). -/
def posMessage (v : ℚ) : String :=
  posMessagePre ++ jsToFixed1 (v * 100) ++ posMessageSuf

/-- Constant part of the negative-verdict message before the
interpolated percentage (src/server.js line 187). -/
def negMessagePre : String :=
  "Analysis did not detect significant indicators of Parkinson's disease in the speech patterns ("

/-- Constant part of the negative-verdict message after the
interpolated percentage (src/server.js line 187). -/
def negMessageSuf : String :=
  "% confidence in healthy classification). Remember that this is a screening tool and cannot replace professional medical advice."

/-- The negative-verdict template literal (src/server.js line 187). -/
def negMessage (c : ℚ) : String :=
  negMessagePre ++ jsToFixed1 (c * 100) ++ negMessageSuf

/-- The fallback message (src/server.js line 193). -/
def fallbackMessage : String :=
  "Analysis completed but results are inconclusive. Please consult with a healthcare professional for proper evaluation."

/-- interpretResults (src/server.js lines 164-201). -/
def interpretResults (result : ClassificationResult) : Interpretation :=
  let parkinsonResult := result.results.find? isPositiveLabel
  let healthyResult := result.results.find? isNegativeLabel
  match parkinsonResult with
  | some p =>
      let hasParkinson : Bool := decide (p.value > 1/2)
      let confidence : ℚ :=
        if p.value > 1/2 then p.value
        else match healthyResult with
          | some h => h.value
          | none => 1 - p.value
      let message : String :=
        if p.value > 1/2 then posMessage p.value else negMessage confidence
      { hasParkinson := hasParkinson, confidence := confidence
        message := message }
  | none =>
      { hasParkinson := result.anomaly || false
        confidence := 5/10
        message := fallbackMessage }

/-- A string that contains `sub` as a substring of its last constant
piece contains `sub` as a substring of the whole. -/
theorem includes_append₃ {a b c sub : String} (h : jsIncludes c sub = true) :
    jsIncludes (a ++ b ++ c) sub = true := by
  simp only [jsIncludes, decide_eq_true_eq] at h ⊢
  rw [String.data_append, String.data_append]
  obtain ⟨u, v, huv⟩ := h
  exact ⟨a.data ++ b.data ++ u, v, by rw [← huv]; simp [List.append_assoc]⟩

/-- Claim C1: the feature extractor is not a pure function of the input
bytes and configuration: on any buffer, the call whose Math.random draws
are all 0 and the call whose draws are all 1/2 return different feature
vectors (they already differ at index 0), so two calls on the same bytes
are not guaranteed identical results. -/
theorem extractFeatures_depends_on_randomness :
    ∀ (sinF : ℕ → ℚ) (b : List ℕ),
      extractFeaturesFromAudio sinF b (fun _ => 0)
        ≠ extractFeaturesFromAudio sinF b (fun _ => 1/2) := by
  intro sinF b h
  have h0 := congrArg (fun l => l[0]?) h
  simp only [extractFeaturesFromAudio, List.getElem?_map,
    List.getElem?_range (show 0 < 128 by norm_num), Option.map_some',
    Option.some_inj] at h0
  linarith [h0]

/-- Claim C2: on the empty byte buffer the extractor does not fail: it
returns a 128-element feature vector, and processAudioFile on an
existing empty file resolves with that vector instead of rejecting with
any error. -/
theorem extract_empty_buffer_returns_features :
    ∀ (sinF rand : ℕ → ℚ),
      (extractFeaturesFromAudio sinF [] rand).length = 128 ∧
      processAudioFile (some []) sinF rand
        = Except.ok (extractFeaturesFromAudio sinF [] rand) := by
  intro sinF rand
  exact ⟨by simp [extractFeaturesFromAudio], rfl⟩

/-- Claim C3: with the Math.random draw 3/8 the parkinson score is
11/20 = 0.55, which exceeds the configured threshold
config.model.threshold = 0.5, yet classify reports anomaly = false: the
anomaly flag compares against a hard-coded 0.6, not the configured
threshold. -/
theorem classify_anomaly_threshold_hardcoded :
    (EdgeImpulseClassifier.classify ⟨true⟩ (3/8) []).anomaly = false ∧
    (EdgeImpulseClassifier.classify ⟨true⟩ (3/8) []).results.find? isPositiveLabel
      = some ⟨"parkinson", 1 - ((3:ℚ)/8 * (4/10) + 3/10)⟩ ∧
    1 - ((3:ℚ)/8 * (4/10) + 3/10) > config.model.threshold := by
  refine ⟨?_, ?_, ?_⟩
  · show decide ((1 - ((3:ℚ)/8 * (4/10) + 3/10)) > 6/10) = false
    rw [decide_eq_false_iff_not]
    norm_num
  · rw [show (EdgeImpulseClassifier.classify ⟨true⟩ (3/8) []).results
      = [⟨"healthy", (3:ℚ)/8 * (4/10) + 3/10⟩, ⟨"parkinson", 1 - ((3:ℚ)/8 * (4/10) + 3/10)⟩]
      from rfl]
    rw [List.find?_cons_of_neg _ (by decide), List.find?_cons_of_pos _ (by decide)]
  · show 1 - ((3:ℚ)/8 * (4/10) + 3/10) > 5/10
    norm_num

/-- Claim C4: when some score's label matches the parkinson/positive
pattern, interpretResults reports hasParkinson exactly when that score
exceeds 1/2, and its confidence is that score when positive, otherwise
the healthy/negative score when one is found, otherwise one minus the
positive score. -/
theorem interpret_positive_branch (res : ClassificationResult) (p : ClassScore)
    (hfind : res.results.find? isPositiveLabel = some p) :
    ((interpretResults res).hasParkinson = true ↔ p.value > 1/2) ∧
    (p.value > 1/2 → (interpretResults res).confidence = p.value) ∧
    (¬ p.value > 1/2 → ∀ n, res.results.find? isNegativeLabel = some n →
      (interpretResults res).confidence = n.value) ∧
    (¬ p.value > 1/2 → res.results.find? isNegativeLabel = none →
      (interpretResults res).confidence = 1 - p.value) := by
  unfold interpretResults
  simp only [hfind]
  refine ⟨by simp, ?_, ?_, ?_⟩
  · intro hv; rw [if_pos hv]
  · intro hv n hn; rw [if_neg hv, hn]
  · intro hv hn; rw [if_neg hv, hn]

/-- Witness for claim C4 at the concrete result
(parkinson 0.73, healthy 0.27): hasParkinson is true and the confidence
is 0.73. -/
theorem interpret_positive_branch_witness :
    (interpretResults ⟨true, [⟨"parkinson", (73:ℚ)/100⟩, ⟨"healthy", (27:ℚ)/100⟩]⟩).hasParkinson = true ∧
    (interpretResults ⟨true, [⟨"parkinson", (73:ℚ)/100⟩, ⟨"healthy", (27:ℚ)/100⟩]⟩).confidence = 73/100 := by
  have hfind : (⟨true, [⟨"parkinson", (73:ℚ)/100⟩, ⟨"healthy", (27:ℚ)/100⟩]⟩ :
      ClassificationResult).results.find? isPositiveLabel = some ⟨"parkinson", (73:ℚ)/100⟩ := by
    rw [show (⟨true, [⟨"parkinson", (73:ℚ)/100⟩, ⟨"healthy", (27:ℚ)/100⟩]⟩ :
      ClassificationResult).results = [⟨"parkinson", (73:ℚ)/100⟩, ⟨"healthy", (27:ℚ)/100⟩] from rfl]
    rw [List.find?_cons_of_pos _ (by decide)]
  have h := interpret_positive_branch _ _ hfind
  exact ⟨h.1.mpr (by norm_num), h.2.1 (by norm_num)⟩

set_option maxRecDepth 4000 in
/-- Claim C5: whatever classification result is interpreted, the
message produced by interpretResults contains the consultation
disclaimer word "professional", in the positive, negative and fallback
branches alike. -/
theorem interpret_message_has_disclaimer (res : ClassificationResult) :
    jsIncludes (interpretResults res).message "professional" = true := by
  unfold interpretResults
  cases hfind : res.results.find? isPositiveLabel with
  | none => simp only [hfind]; decide
  | some p =>
    simp only [hfind]
    by_cases hv : p.value > (1/2 : ℚ)
    · simp only [hv, if_true, posMessage]
      exact includes_append₃ (by decide)
    · simp only [hv, if_false, negMessage]
      exact includes_append₃ (by decide)

/-- Claim C6: when no score's label matches the parkinson/positive
pattern nor the healthy/negative pattern, interpretResults returns the
anomaly flag as hasParkinson, confidence exactly 1/2, and the generic
inconclusive message. -/
theorem interpret_fallback_branch (res : ClassificationResult)
    (h : ∀ r ∈ res.results, isPositiveLabel r = false ∧ isNegativeLabel r = false) :
    (interpretResults res).hasParkinson = res.anomaly ∧
    (interpretResults res).confidence = 5/10 ∧
    (interpretResults res).message = fallbackMessage := by
  have hfind : res.results.find? isPositiveLabel = none :=
    List.find?_eq_none.mpr (fun x hx => by simp [(h x hx).1])
  unfold interpretResults
  simp only [hfind, Bool.or_false]
  exact ⟨trivial, trivial, trivial⟩

/-- Witness for claim C6 at the concrete result with unrecognizable
labels A and B and anomaly set: hasParkinson echoes the anomaly flag,
confidence is 1/2, the message is the generic inconclusive one. -/
theorem interpret_fallback_branch_witness :
    (interpretResults ⟨true, [⟨"A", (9:ℚ)/10⟩, ⟨"B", (1:ℚ)/10⟩]⟩).hasParkinson = true ∧
    (interpretResults ⟨true, [⟨"A", (9:ℚ)/10⟩, ⟨"B", (1:ℚ)/10⟩]⟩).confidence = 5/10 ∧
    (interpretResults ⟨true, [⟨"A", (9:ℚ)/10⟩, ⟨"B", (1:ℚ)/10⟩]⟩).message = fallbackMessage :=
  interpret_fallback_branch _ (by decide)

/-- Claim C7: classify never consults the classifier state: called on
the state whose flag is still false it behaves exactly as on the marked
state and returns the usual two-score result, so no failure of any kind
is signaled before init. -/
theorem classify_without_init_returns_result :
    ∀ (feats : List ℚ) (r : ℚ) (d : Bool),
      EdgeImpulseClassifier.classify ⟨false⟩ r feats d
        = EdgeImpulseClassifier.classify ⟨true⟩ r feats d ∧
      (EdgeImpulseClassifier.classify ⟨false⟩ r feats d).results.map ClassScore.label
        = ["healthy", "parkinson"] :=
  fun _ _ _ => ⟨rfl, rfl⟩

/-- Claim C8: for every buffer the extractor returns 128 features, a
function-local constant, while the configured feature count
config.audio.numFeatures is 13, so the output length never equals the
configured count. -/
theorem extract_length_disagrees_with_config :
    ∀ (sinF rand : ℕ → ℚ) (b : List ℕ),
      (extractFeaturesFromAudio sinF b rand).length = 128 ∧
      config.audio.numFeatures = 13 ∧
      (extractFeaturesFromAudio sinF b rand).length ≠ config.audio.numFeatures := by
  intro sinF rand b
  have hl : (extractFeaturesFromAudio sinF b rand).length = 128 := by
    simp [extractFeaturesFromAudio]
  exact ⟨hl, rfl, by rw [hl]; decide⟩

/-- Claim C9: init is idempotent: running it twice from any state gives
the same state as running it once, and getProjectInfo agrees after the
first and the second run. -/
theorem init_idem : ∀ s : ClassifierState,
    EdgeImpulseClassifier.init (EdgeImpulseClassifier.init s)
      = EdgeImpulseClassifier.init s ∧
    EdgeImpulseClassifier.getProjectInfo
        (EdgeImpulseClassifier.init (EdgeImpulseClassifier.init s))
      = EdgeImpulseClassifier.getProjectInfo (EdgeImpulseClassifier.init s) := by
  intro s
  constructor
  · by_cases h : s.inited = true <;> simp [EdgeImpulseClassifier.init, h]
  · rfl

/-- Claim C10: classify ignores its feature argument (and its debug
flag): any two feature vectors of any lengths produce the same result
under the same random draw, and the result always carries exactly the
two scores labeled healthy and parkinson, in that order, with no error
for any input shape. -/
theorem classify_ignores_features :
    ∀ (s : ClassifierState) (f₁ f₂ : List ℚ) (d₁ d₂ : Bool) (r : ℚ),
      EdgeImpulseClassifier.classify s r f₁ d₁
        = EdgeImpulseClassifier.classify s r f₂ d₂ ∧
      (EdgeImpulseClassifier.classify s r f₁ d₁).results.map ClassScore.label
        = ["healthy", "parkinson"] :=
  fun _ _ _ _ _ _ => ⟨rfl, rfl⟩

end VoiceScan
